import Mathlib

/-!
Shallow embedding of the Spriggler decision-and-command engine:
the power-command protocol (src/devices/power_state.py), the actuator
drivers built on it (src/devices/mock_device.py, src/devices/KASA_Powerbar.py),
and the environment controller (src/controllers/environment_controller.py).
Each definition is translated from the named Python function; theorems settle
the specification claims about them.
-/

set_option autoImplicit false

namespace Spriggler

/-! ## Association-list model of Python dicts

The controller keeps its per-key state in Python dicts
(`_last_commands`, `_missing_reading_logs`).  We embed a dict as an
association list: `lookupA` is `dict.get`, `insertA` is `dict[k] = v`,
`eraseA` is `dict.pop(k, None)`. -/

def lookupA {α β : Type} [DecidableEq α] (m : List (α × β)) (k : α) : Option β :=
  (m.find? (fun e => decide (e.1 = k))).map (·.2)

def insertA {α β : Type} [DecidableEq α] (m : List (α × β)) (k : α) (v : β) :
    List (α × β) :=
  (k, v) :: m.filter (fun e => decide (e.1 ≠ k))

def eraseA {α β : Type} [DecidableEq α] (m : List (α × β)) (k : α) : List (α × β) :=
  m.filter (fun e => decide (e.1 ≠ k))

/-! ## PowerCommandResult and the asynchronous power-command helper

`devices/power_state.py` lines 12-17 define the dataclass, lines 20-52 the
async helper `ensure_power_state_async`.  The helper's two callbacks are
embedded by their observable behaviour: a read either yields an
`Optional[bool]` value or raises (the exception is caught and treated as
unknown, lines 104-108 / 142-149); the command either completes or raises
(that exception propagates to the caller, line 44). -/

structure PowerCommandResult where
  command_sent : Bool
  final_state : Option Bool
deriving DecidableEq, Repr

inductive ReadOutcome where
  | value (v : Option Bool)
  | raises
deriving DecidableEq, Repr

inductive CmdOutcome where
  | completes
  | raises
deriving DecidableEq, Repr

/-- One call of `_read_state_async` (power_state.py lines 91-108):
`bool(state) if state is not None else None`, with any exception caught
and degraded to `None`. -/
def read_outcome_value : ReadOutcome → Option Bool
  | .value v => v
  | .raises => none

/-- Outcome of one run of `ensure_power_state_async`: `result = none` means
the command callback raised and the exception propagated; `command_invoked`
records whether `command()` was awaited. -/
structure EnsureAsyncResult where
  result : Option PowerCommandResult
  command_invoked : Bool
deriving DecidableEq, Repr

/-- `ensure_power_state_async` (power_state.py lines 20-52).  `read_state`
is `none` when no state reader is supplied; otherwise it carries the
outcomes of the pre-read and of the post-verify read. -/
def ensure_power_state_async (desired_state : Bool)
    (read_state : Option (ReadOutcome × ReadOutcome)) (command : CmdOutcome) :
    EnsureAsyncResult :=
  let pre_state : Option Bool :=
    match read_state with
    | none => none
    | some (pre, _) => read_outcome_value pre
  -- line 38: `if pre_state is not None and pre_state == desired_state`
  if pre_state = some desired_state then
    { result := some { command_sent := false, final_state := pre_state },
      command_invoked := false }
  else
    match command with
    | .raises => { result := none, command_invoked := true }
    | .completes =>
      let post_state : Option Bool :=
        match read_state with
        | none => none
        | some (_, post) => read_outcome_value post
      { result := some { command_sent := true, final_state := post_state },
        command_invoked := true }

/-! ## The synchronous helper as actually used by the drivers

`devices/power_state.py` lines 55-84 define the synchronous variant
`ensure_power_state`.  All three drivers import this synchronous variant
(mock_device.py line 8, KASA_Powerbar.py line 16, vesync_humidifier.py
line 16) yet pass it `async def` callbacks and `await` its return value
(e.g. `MockDevice.turn_on`, mock_device.py lines 51-59).  To settle what
that code does we embed the relevant slice of Python's runtime semantics:

* calling an `async def` returns a coroutine object without running its
  body (`PyVal.coroutine`);
* `bool(...)` of a coroutine object is `True`;
* `await v` for a `v` that is neither a coroutine nor otherwise awaitable
  raises `TypeError`.  A `PowerCommandResult` dataclass instance is not
  awaitable. -/

inductive PyVal where
  | pynone
  | pybool (b : Bool)
  | coroutine
  | powerResult (r : PowerCommandResult)
deriving DecidableEq, Repr

inductive PyError where
  | typeError
deriving DecidableEq, Repr

/-- Python truthiness of the embedded values: `None` is falsy, a coroutine
object (like every plain object) is truthy. -/
def PyVal.truthy : PyVal → Bool
  | .pynone => false
  | .pybool b => b
  | .coroutine => true
  | .powerResult _ => true

/-- `await v`.  Awaiting a coroutine would run its body (never exercised by
the drivers modelled here, whose awaited value is always a
`PowerCommandResult`; the drivers' coroutine callbacks all have `None`-
returning bodies, hence `.pynone`).  Awaiting any non-awaitable value
raises `TypeError`. -/
def awaitValue : PyVal → Except PyError PyVal
  | .coroutine => .ok .pynone
  | _ => .error .typeError

/-- `_read_state_sync` (power_state.py lines 111-124): call the reader and
return `bool(state) if state is not None else None`.  The callbacks passed
by the drivers never raise at call time (calling an `async def` always
succeeds and returns a coroutine), so the exception branch is not
reachable here. -/
def read_state_sync (read_state : Option (Unit → PyVal)) : Option Bool :=
  match read_state with
  | none => none
  | some f =>
    let state := f ()
    if state = .pynone then none else some state.truthy

/-- `_verify_state_sync` (power_state.py lines 162-192): re-read and coerce
exactly like the pre-read; logging has no bearing on the returned value. -/
def verify_state_sync (read_state : Option (Unit → PyVal)) : Option Bool :=
  match read_state with
  | none => none
  | some f =>
    let post_state := f ()
    if post_state = .pynone then none else some post_state.truthy

/-- `ensure_power_state` (power_state.py lines 55-84), the synchronous
variant.  `command ()` is evaluated for its side effect only; when the
callback is an `async def` this merely creates a coroutine object. -/
def ensure_power_state_sync (desired_state : Bool)
    (read_state : Option (Unit → PyVal)) (command : Unit → PyVal) :
    PowerCommandResult :=
  let pre_state := read_state_sync read_state
  if pre_state = some desired_state then
    { command_sent := false, final_state := pre_state }
  else
    let _ := command ()
    { command_sent := true, final_state := verify_state_sync read_state }

/-- `MockDevice.turn_on` (mock_device.py lines 51-59):
`return await ensure_power_state(desired_state=True, ..., read_state=self.is_on,
command=self._do_turn_on)` where `ensure_power_state` is the synchronous
helper (imported at mock_device.py line 8) and `self.is_on` /
`self._do_turn_on` are `async def`s — calling them returns a coroutine
object whose body never runs, so the stored `_is_on` state is never read
and never mutated; the parameter records it only to quantify over every
device state. -/
def mock_device_turn_on (is_on_state : Bool) : Except PyError PyVal :=
  let _ := is_on_state
  let result := ensure_power_state_sync true
    (some fun _ => PyVal.coroutine)
    (fun _ => PyVal.coroutine)
  awaitValue (PyVal.powerResult result)

/-! ## Decision engine

`EnvironmentController._decision` (environment_controller.py lines
271-279).  Sensor values and bounds are Python floats compared with
`<` / `>`; we embed them as rationals. -/

/-- `EnvironmentController._decision` (environment_controller.py lines
271-279). -/
def decision (value : ℚ) (minimum maximum : Option ℚ) : String :=
  if (match minimum with
      | some m => decide (value < m)
      | none => false) then "increase"
  else if (match maximum with
      | some m => decide (value > m)
      | none => false) then "decrease"
  else "stable"

/-! ## Schedule time windows

`_time_in_range` (environment_controller.py lines 579-593) compares
`datetime.time` values; both window endpoints come from `_to_time`
(lines 596-598) parsing `HH:MM`, so they are whole minutes.  We embed a
time of day as its minutes-of-day count (`hour * 60 + minute`,
0 ≤ t < 1440), which preserves the lexicographic order of
`datetime.time` at minute resolution. -/

/-- `_to_time` (environment_controller.py lines 596-598) as minutes of day. -/
def to_time (hours minutes : ℕ) : ℕ :=
  hours * 60 + minutes

/-- `_time_in_range` (environment_controller.py lines 579-593); `start_t`
and `stop_t` are the parsed `HH:MM` endpoints, `now` the current time of
day. -/
def time_in_range (start_t stop_t now : ℕ) : Bool :=
  if start_t ≤ stop_t then
    decide (start_t ≤ now ∧ now ≤ stop_t)
  else
    -- over-midnight window (line 593)
    decide (now ≥ start_t ∨ now ≤ stop_t)

/-! ## Command dispatch: `_issue_command`

`EnvironmentController._issue_command` (environment_controller.py lines
402-502).  The command history `self._last_commands` maps
`(device_id, property_name)` to `(command, monotonic timestamp)`; times
are embedded as rationals.  The device call `command_fn()` (after the
`await` of line 473) either raises — caught at lines 495-501 — or returns
a value; the controller then inspects that value for a `command_sent`
field (lines 475-479): a `PowerCommandResult` instance, any object with a
`command_sent` attribute, or anything else (treated as sent). -/

abbrev History : Type := List ((String × String) × (String × ℚ))

/-- The possible shapes of the device call's return value as inspected at
environment_controller.py lines 475-479. -/
inductive CommandReturn where
  | pcr (r : PowerCommandResult)
  | withCommandSentAttr (command_sent : Bool)
  | plain
deriving DecidableEq, Repr

/-- Lines 475-479: `command_sent = True`, overridden by
`result.command_sent` for a `PowerCommandResult`, else by
`bool(result.command_sent)` when the attribute exists. -/
def interpret_command_sent : CommandReturn → Bool
  | .pcr r => r.command_sent
  | .withCommandSentAttr b => b
  | .plain => true

/-- Behaviour of `command_fn()` at line 471-473. -/
inductive CallBehavior where
  | raises
  | returns (r : CommandReturn)
deriving DecidableEq, Repr

/-- Observable outcome of one `_issue_command` run: the returned boolean,
whether `command_fn()` was actually invoked, and the updated
`_last_commands` history. -/
structure IssueResult where
  issued : Bool
  device_called : Bool
  history : History
deriving DecidableEq, Repr

/-- `EnvironmentController._issue_command` (environment_controller.py
lines 402-502).  `device_present` models `devices.get(device_id)` being
truthy (line 441), `command_callable` models
`callable(getattr(device, command, None))` (line 450). -/
def issue_command (hist : History) (now : ℚ)
    (debounce_seconds state_refresh_seconds : ℚ) (dry_run : Bool)
    (device_present command_callable : Bool)
    (device_id property_name command : String)
    (behavior : CallBehavior) : IssueResult :=
  let history_key := (device_id, property_name)
  -- line 415: `self._last_commands.get(history_key, (None, 0))`
  let last := lookupA hist history_key
  let last_action : Option String := last.map (·.1)
  let last_time : ℚ := (last.map (·.2)).getD 0
  if last_action = some command ∧ now - last_time < debounce_seconds then
    { issued := false, device_called := false, history := hist }
  else if last_action = some command ∧ now - last_time < state_refresh_seconds then
    { issued := false, device_called := false, history := hist }
  else if ¬ device_present then
    { issued := false, device_called := false, history := hist }
  else if ¬ command_callable then
    { issued := false, device_called := false, history := hist }
  else if dry_run then
    -- lines 465-468: log, record history as if sent, no hardware call
    { issued := true, device_called := false,
      history := insertA hist history_key (command, now) }
  else
    match behavior with
    | .raises =>
      -- lines 495-502: exception caught and logged; history untouched
      { issued := false, device_called := true, history := hist }
    | .returns r =>
      if interpret_command_sent r then
        { issued := true, device_called := true,
          history := insertA hist history_key (command, now) }
      else
        { issued := false, device_called := true, history := hist }

/-! ## Missing-readings log deduplication

The `property_value is None` branch of `EnvironmentController.evaluate`
(environment_controller.py lines 166-179) and the reset on a successful
aggregated reading (line 181). -/

/-- State of `self._missing_reading_logs`. -/
abbrev MissingLogs : Type := List ((String × String) × ℚ)

/-- The missing-readings branch of `evaluate` (lines 166-179): returns
whether the warning was logged this tick together with the updated dedup
map. -/
def missing_reading_step (logs : MissingLogs)
    (environment_id property_name : String)
    (now state_refresh_seconds : ℚ) : Bool × MissingLogs :=
  let missing_key := (environment_id, property_name)
  match lookupA logs missing_key with
  | none => (true, insertA logs missing_key now)
  | some last_missing =>
    if now - last_missing ≥ state_refresh_seconds then
      (true, insertA logs missing_key now)
    else
      (false, logs)

/-- Line 181: `self._missing_reading_logs.pop((environment_id,
property_name), None)` executed whenever the tick observed a successful
aggregated reading. -/
def observed_reading_step (logs : MissingLogs) (missing_key : String × String) :
    MissingLogs :=
  eraseA logs missing_key

/-! ## KASA safety-fallback sub-protocol

`KasaPowerbar` safety logic (KASA_Powerbar.py): `_safety_settings`
(lines 304-330), `_clear_countdown_rules` (lines 342-359),
`_program_countdown_failsafe` (lines 361-394), `_apply_safety_programming`
(lines 396-424) and `_clear_safety_programming` (lines 426-430).
Hardware interaction is embedded as the ordered trace of `_query_helper`
calls issued to the outlet. -/

/-- Per-outlet safety configuration as held on the driver instance
(`_safety_target_state`, `_safety_timeout_minutes`, `_safety_enforce`,
KASA_Powerbar.py lines 77-83). -/
structure SafetyConfig where
  target_state : Option String
  timeout_minutes : Option ℚ
  enforce : Bool
deriving DecidableEq, Repr

/-- Python's `str.lower()` on the configured state strings, written over
the character list. -/
def py_lower (s : String) : String :=
  String.mk (s.data.map Char.toLower)

/-- `_safety_settings` (KASA_Powerbar.py lines 304-330): parsed fallback
target (`True` = on), timeout in whole seconds (`int(minutes * 60)`,
truncation = floor for the positive timeouts accepted here), and the
effective enforce flag.  `if not self._safety_target_state` treats both
`None` and the empty string as unset. -/
def safety_settings (c : SafetyConfig) : Option Bool × Option ℤ × Bool :=
  if ¬ c.enforce then (none, none, false)
  else
    match c.target_state with
    | none => (none, none, false)
    | some ts =>
      if ts = "" then (none, none, false)
      else
        let normalized := py_lower ts
        if ¬ (normalized = "on" ∨ normalized = "off") then (none, none, false)
        else
          match c.timeout_minutes with
          | none => (none, none, false)
          | some tm =>
            if tm ≤ 0 then (none, none, false)
            else (some (normalized = "on"), some ⌊tm * 60⌋, true)

/-- Capabilities and failure modes of the outlet hardware surface used by
the countdown helpers: whether `modules.get(Module.IotCountdown)` is
present (line 340), whether the outlet `hasattr _query_helper`
(lines 348, 378), and whether each `_query_helper` call raises. -/
structure OutletHardware where
  countdown_module : Bool
  query_helper : Bool
  clear_raises : Bool
  add_raises : Bool
deriving DecidableEq, Repr

/-- One `_query_helper("count_down", ...)` call made to the outlet. -/
inductive KasaCall where
  | delete_all_rules
  | add_rule (delay : ℤ) (act : ℕ) (enable : ℕ) (name : String)
deriving DecidableEq, Repr

/-- `_clear_countdown_rules` (KASA_Powerbar.py lines 342-359): returns the
Python function's boolean result and the trace of `_query_helper` calls
attempted (a raising call is still a call; its exception is caught at
lines 353-358). -/
def clear_countdown_rules (hw : OutletHardware) : Bool × List KasaCall :=
  if ¬ hw.countdown_module then (false, [])
  else if hw.query_helper then
    if hw.clear_raises then (false, [.delete_all_rules])
    else (true, [.delete_all_rules])
  else (false, [])

/-- `_program_countdown_failsafe` (KASA_Powerbar.py lines 361-394): clear
first, then `add_rule` with
`{delay: timeout_seconds, act: 1 if target_state else 0, enable: 1,
name: "spriggler_failsafe"}`. -/
def program_countdown_failsafe (hw : OutletHardware)
    (target_state : Bool) (timeout_seconds : ℤ) : Bool × List KasaCall :=
  if ¬ hw.countdown_module then (false, [])
  else
    let cleared := clear_countdown_rules hw
    let params : KasaCall :=
      .add_rule timeout_seconds (if target_state then 1 else 0) 1 "spriggler_failsafe"
    if hw.query_helper then
      if hw.add_raises then (false, cleared.2 ++ [params])
      else (true, cleared.2 ++ [params])
    else (false, cleared.2)

/-- `_apply_safety_programming` (KASA_Powerbar.py lines 396-424), returning
the trace of countdown `_query_helper` calls it causes
(`_clear_safety_programming`, lines 426-430, only wraps
`_clear_countdown_rules` with a debug log). -/
def apply_safety_programming (cfg : SafetyConfig) (hw : OutletHardware)
    (command_state : Bool) : List KasaCall :=
  let settings := safety_settings cfg
  let target_state := settings.1
  let timeout_seconds := settings.2.1
  let enforce := settings.2.2
  if ¬ enforce ∨ target_state = none ∨ timeout_seconds = none then
    (clear_countdown_rules hw).2
  -- line 412: the commanded state already matches the fallback state
  else if some command_state = target_state then
    (clear_countdown_rules hw).2
  else
    (program_countdown_failsafe hw (target_state.getD false)
      (timeout_seconds.getD 0)).2

/-! ## Controller configuration validation

`EnvironmentController.__init__` (environment_controller.py lines 18-46)
stores the configuration tree and ends by calling
`_validate_configuration` (lines 51-105), which raises `ValueError` iff
it collected any error.  `_device_effects` (lines 527-538) resolves a
device's effect list, falling back to `devices.defaults.effects[what]`. -/

/-- One entry of a device's `effects` list.  `property` is
`effect.get("property")`; `policy` is `effect.get("policy")`, `none` when
absent or not a mapping (line 89 checks `isinstance(policy, Mapping)`),
otherwise the mapping's entries. -/
structure Effect where
  property : Option String
  policy : Option (List (String × String))
deriving DecidableEq, Repr

structure DeviceDefinition where
  id : String
  what : Option String
  effects : List Effect
deriving DecidableEq, Repr

structure PropertyConfig where
  controllers : List String
deriving DecidableEq, Repr

structure Environment where
  id : String
  properties : List (String × PropertyConfig)
deriving DecidableEq, Repr

structure ControllerConfig where
  environments : List Environment
  device_definitions : List DeviceDefinition
  device_effect_defaults : List (String × List Effect)
deriving DecidableEq, Repr

/-- `EnvironmentController._device_effects` (environment_controller.py
lines 527-538): the definition's own effects if non-empty, otherwise the
defaults keyed by the definition's `what` (a missing definition has no
`what`, and `defaults.get(None)` finds nothing), otherwise `[]`. -/
def device_effects (cfg : ControllerConfig) (device_id : String) : List Effect :=
  let definition := cfg.device_definitions.find? (fun d => decide (d.id = device_id))
  let effects := (definition.map (·.effects)).getD []
  if effects ≠ [] then effects
  else
    match definition.bind (·.what) with
    | none => []
    | some w => (lookupA cfg.device_effect_defaults w).getD []

/-- Line 77-79: the effects whose `property` equals the controlled
property. -/
def matching_effects (cfg : ControllerConfig) (property_name device_id : String) :
    List Effect :=
  (device_effects cfg device_id).filter (fun e => decide (e.property = some property_name))

def required_decisions : List String := ["increase", "decrease", "stable"]

/-- An effect passes validation when it has a `policy` mapping covering
all of `required_decisions` (lines 87-101). -/
def effect_policy_complete (e : Effect) : Bool :=
  match e.policy with
  | none => false
  | some policy => required_decisions.all (fun d => (lookupA policy d).isSome)

/-- The validation errors `_validate_configuration` collects (lines
60-101), by kind. -/
inductive ConfigError where
  | noEffects (env_id property_name device_id : String)
  | noMatchingEffect (env_id property_name device_id : String)
  | missingPolicy (env_id property_name device_id : String)
  | missingDecisions (env_id property_name device_id : String)
      (missing : List String)
deriving DecidableEq, Repr

/-- Errors collected for one matching effect (lines 87-101): a missing or
non-mapping `policy`, or required decision keys absent from it. -/
def effect_errors (env_id property_name device_id : String) (e : Effect) :
    List ConfigError :=
  match e.policy with
  | none => [.missingPolicy env_id property_name device_id]
  | some policy =>
    let missing := required_decisions.filter (fun d => (lookupA policy d).isNone)
    if missing = [] then [] else
      [.missingDecisions env_id property_name device_id missing]

/-- Errors collected for one `(environment, property, controller device)`
triple of the loops at lines 62-101. -/
def triple_errors (cfg : ControllerConfig) (env_id property_name device_id : String) :
    List ConfigError :=
  let effects := device_effects cfg device_id
  if effects = [] then [.noEffects env_id property_name device_id]
  else
    let matching := matching_effects cfg property_name device_id
    if matching = [] then [.noMatchingEffect env_id property_name device_id]
    else
      matching.flatMap (effect_errors env_id property_name device_id)

/-- `EnvironmentController._validate_configuration` (environment_controller.py
lines 51-105): the full error list; construction raises `ValueError`
(line 105) iff this list is non-empty, before any evaluation can run. -/
def validate_configuration (cfg : ControllerConfig) : List ConfigError :=
  cfg.environments.flatMap fun environment =>
    environment.properties.flatMap fun p =>
      p.2.controllers.flatMap fun device_id =>
        triple_errors cfg environment.id p.1 device_id

/-- Construction of `EnvironmentController` succeeds (no `ValueError` from
`_validate_configuration`) iff no errors were collected. -/
def construction_succeeds (cfg : ControllerConfig) : Bool :=
  validate_configuration cfg = []

/-- A policy mapping carrying all three required decision keys. -/
def full_policy : List (String × String) :=
  [("increase", "on"), ("decrease", "off"), ("stable", "off")]

/-- Concrete configuration: the controller device `dev1` for property
`temperature` declares effects, but its only effect targets `humidity`
(with a complete policy), so no effect matches `temperature`. -/
def no_matching_effect_config : ControllerConfig :=
  { environments :=
      [{ id := "env1",
         properties := [("temperature", { controllers := ["dev1"] })] }],
    device_definitions :=
      [{ id := "dev1", what := some "mock",
         effects := [{ property := some "humidity", policy := some full_policy }] }],
    device_effect_defaults := [] }

/-- Concrete configuration: the controller device `dev1` has a matching
effect for `temperature` whose policy carries all three decision keys. -/
def fully_keyed_config : ControllerConfig :=
  { environments :=
      [{ id := "env1",
         properties := [("temperature", { controllers := ["dev1"] })] }],
    device_definitions :=
      [{ id := "dev1", what := some "mock",
         effects := [{ property := some "temperature", policy := some full_policy }] }],
    device_effect_defaults := [] }

/-! ## Shared helper lemmas -/

theorem lookupA_insertA_self {α β : Type} [DecidableEq α]
    (m : List (α × β)) (k : α) (v : β) : lookupA (insertA m k v) k = some v := by
  simp [lookupA, insertA]

theorem lookupA_eraseA_self {α β : Type} [DecidableEq α]
    (m : List (α × β)) (k : α) : lookupA (eraseA m k) k = none := by
  simp [lookupA, eraseA, List.find?_eq_none]

theorem effect_errors_eq_nil_iff (env_id property_name device_id : String)
    (e : Effect) :
    effect_errors env_id property_name device_id e = [] ↔
      effect_policy_complete e = true := by
  rcases e with ⟨prop, _ | policy⟩
  · simp [effect_errors, effect_policy_complete]
  · simp only [effect_errors, effect_policy_complete]
    constructor
    · intro h
      rw [List.all_eq_true]
      intro d hd
      by_contra hds
      have hnone : (lookupA policy d).isNone = true := by
        cases hopt : lookupA policy d <;> simp_all
      have hmem : d ∈ required_decisions.filter
          (fun d => (lookupA policy d).isNone) :=
        List.mem_filter.mpr ⟨hd, hnone⟩
      split_ifs at h with hfil
      rw [hfil] at hmem
      exact absurd hmem (List.not_mem_nil d)
    · intro h
      have hfil : required_decisions.filter
          (fun d => (lookupA policy d).isNone) = [] := by
        rw [List.filter_eq_nil_iff]
        intro d hd
        have := List.all_eq_true.mp h d hd
        cases hopt : lookupA policy d <;> simp_all
      simp [hfil]

theorem triple_errors_eq_nil_iff (cfg : ControllerConfig)
    (env_id property_name device_id : String) :
    triple_errors cfg env_id property_name device_id = [] ↔
      device_effects cfg device_id ≠ [] ∧
      matching_effects cfg property_name device_id ≠ [] ∧
      ∀ e ∈ matching_effects cfg property_name device_id,
        effect_policy_complete e = true := by
  simp only [triple_errors]
  split_ifs with h1 h2
  · simp [h1]
  · simp [h2]
  · rw [List.flatMap_eq_nil_iff]
    constructor
    · intro h
      exact ⟨h1, h2, fun e he =>
        (effect_errors_eq_nil_iff env_id property_name device_id e).mp (h e he)⟩
    · rintro ⟨-, -, h⟩ e he
      exact (effect_errors_eq_nil_iff env_id property_name device_id e).mpr (h e he)

/-! ## Claim theorems -/

/-- C1: the claim says every actuator driver's `turn_on`/`turn_off` returns
a `PowerCommandResult` produced by the shared power-command protocol helper
for every device state and hardware behaviour.  The code instead awaits the
synchronous `ensure_power_state` (all three drivers import the sync
variant), whose `PowerCommandResult` return value is not awaitable, so
`MockDevice.turn_on` raises `TypeError` for every device state instead of
returning a result. -/
theorem C1_mock_turn_on_raises_type_error :
    ∀ is_on_state : Bool,
      mock_device_turn_on is_on_state = Except.error PyError.typeError :=
  fun _ => rfl

/-- C2: when a state reader is supplied and the pre-read state equals the
desired state, `ensure_power_state_async` never invokes the command
callback and returns `{commandSent: false, finalState: pre-read state}`. -/
theorem C2_preread_match_skips_command
    (desired_state : Bool) (pre post : ReadOutcome) (command : CmdOutcome)
    (hpre : read_outcome_value pre = some desired_state) :
    ensure_power_state_async desired_state (some (pre, post)) command =
      { result := some { command_sent := false, final_state := some desired_state },
        command_invoked := false } := by
  simp [ensure_power_state_async, hpre]

/-- Witness for C2 at a concrete input: device already on, turn-on
requested. -/
theorem C2_preread_match_skips_command_witness :
    read_outcome_value (.value (some true)) = some true ∧
    ensure_power_state_async true (some (.value (some true), .value (some true)))
        .completes =
      { result := some { command_sent := false, final_state := some true },
        command_invoked := false } :=
  ⟨rfl, C2_preread_match_skips_command true (.value (some true)) (.value (some true))
    .completes rfl⟩

/-- C3: `_decision` returns `"increase"` iff `min` is set and the value is
below it, else `"decrease"` iff `max` is set and the value is above it,
else `"stable"`; an absent bound never fires its decision. -/
theorem C3_decision_characterization :
    ∀ (value : ℚ) (minimum maximum : Option ℚ),
      (decision value minimum maximum = "increase" ↔
        ∃ m, minimum = some m ∧ value < m) ∧
      (decision value minimum maximum = "decrease" ↔
        (¬ ∃ m, minimum = some m ∧ value < m) ∧
          ∃ m, maximum = some m ∧ value > m) ∧
      (decision value minimum maximum = "stable" ↔
        (¬ ∃ m, minimum = some m ∧ value < m) ∧
          ¬ ∃ m, maximum = some m ∧ value > m) ∧
      (minimum = none → decision value minimum maximum ≠ "increase") ∧
      (maximum = none → decision value minimum maximum ≠ "decrease") := by
  intro value minimum maximum
  rcases minimum with _ | m <;> rcases maximum with _ | M
  · simp [decision]
  · by_cases hM : M < value
    · simp [decision, hM, gt_iff_lt]
    · simp [decision, hM, gt_iff_lt]
  · by_cases hm : value < m
    · simp [decision, hm]
    · simp [decision, hm]
  · by_cases hm : value < m
    · simp [decision, hm]
    · by_cases hM : M < value
      · simp [decision, hm, hM, gt_iff_lt]
      · simp [decision, hm, hM, gt_iff_lt]

/-- C4 counterexample: the degenerate overnight window `10:01-10:00`
(start = end + 1 minute) matches every time of day, so `now = start - 1`
(which is also `now = end`) is matched, contradicting the claim that one
minute before start is excluded for every overnight window. -/
theorem C4_counterexample_degenerate_overnight_window :
    600 < 601 ∧ 600 = 601 - 1 ∧
      time_in_range (to_time 10 1) (to_time 10 0) (to_time 10 0) = true := by
  decide

/-- C4 (amended): the inclusive / wrap-around characterization holds as
claimed, and both endpoints of an overnight window are included; the
minute-before-start and minute-after-end exclusions hold for every
overnight window that does not cover the whole day (start > end + 1). -/
theorem C4_time_window_semantics (start_t stop_t now : ℕ)
    (hs : start_t < 1440) (he : stop_t < 1440) (_hn : now < 1440) :
    (start_t ≤ stop_t →
      (time_in_range start_t stop_t now = true ↔ start_t ≤ now ∧ now ≤ stop_t)) ∧
    (stop_t < start_t →
      (time_in_range start_t stop_t now = true ↔ now ≥ start_t ∨ now ≤ stop_t)) ∧
    (stop_t < start_t →
      time_in_range start_t stop_t start_t = true ∧
      time_in_range start_t stop_t stop_t = true) ∧
    (stop_t + 1 < start_t →
      time_in_range start_t stop_t (start_t - 1) = false ∧
      time_in_range start_t stop_t (stop_t + 1) = false) := by
  refine ⟨fun h => ?_, fun h => ?_, fun h => ?_, fun h => ?_⟩
  · simp [time_in_range, h]
  · simp [time_in_range, Nat.not_le.mpr h]
  · constructor <;> simp [time_in_range, Nat.not_le.mpr h]
  · have h' : stop_t < start_t := by omega
    constructor <;> simp [time_in_range, Nat.not_le.mpr h'] <;> omega

/-- Witness for C4 at a concrete input: the overnight window 23:00-02:00. -/
theorem C4_time_window_semantics_witness :
    time_in_range (to_time 23 0) (to_time 2 0) (to_time 23 0) = true ∧
    time_in_range (to_time 23 0) (to_time 2 0) (to_time 2 0) = true :=
  (C4_time_window_semantics 1380 120 0 (by decide) (by decide)
    (by decide)).2.2.1 (by decide)

/-- C5: if the command equals the last recorded command for the
`(device, property)` pair and fits in the debounce window (or the longer
state-refresh window), `_issue_command` suppresses it — no device call,
history unchanged, `False` returned; consequently two identical
back-to-back requests, the first of which reports its command as truly
sent, produce exactly one underlying device call. -/
theorem C5_debounce_and_refresh_suppression
    (device_id property_name command : String)
    (debounce_seconds state_refresh_seconds : ℚ) :
    (∀ (hist : History) (t now : ℚ) (dry_run device_present command_callable : Bool)
        (behavior : CallBehavior),
      lookupA hist (device_id, property_name) = some (command, t) →
      (now - t < debounce_seconds ∨ now - t < state_refresh_seconds) →
      issue_command hist now debounce_seconds state_refresh_seconds dry_run
          device_present command_callable device_id property_name command behavior =
        { issued := false, device_called := false, history := hist }) ∧
    (∀ (hist : History) (t0 t1 : ℚ) (r : CommandReturn) (behavior2 : CallBehavior),
      lookupA hist (device_id, property_name) = none →
      interpret_command_sent r = true →
      t1 - t0 < debounce_seconds →
      (issue_command hist t0 debounce_seconds state_refresh_seconds false true true
          device_id property_name command (.returns r)).device_called = true ∧
      (issue_command
          (issue_command hist t0 debounce_seconds state_refresh_seconds false true true
            device_id property_name command (.returns r)).history
          t1 debounce_seconds state_refresh_seconds false true true
          device_id property_name command behavior2).device_called = false) := by
  constructor
  · intro hist t now dry_run device_present command_callable behavior hlook hwin
    rcases hwin with hdb | hsr
    · simp [issue_command, hlook, hdb]
    · by_cases hdb : now - t < debounce_seconds
      · simp [issue_command, hlook, hdb]
      · simp [issue_command, hlook, hdb, hsr]
  · intro hist t0 t1 r behavior2 hlook hsent hdb
    have hfirst :
        issue_command hist t0 debounce_seconds state_refresh_seconds false true true
            device_id property_name command (.returns r) =
          { issued := true, device_called := true,
            history := insertA hist (device_id, property_name) (command, t0) } := by
      simp [issue_command, hlook, hsent]
    refine ⟨by rw [hfirst], ?_⟩
    rw [hfirst]
    simp [issue_command, lookupA_insertA_self, hdb]

/-- Witness for C5 at concrete inputs: a `turn_on` recorded at t=0 is
suppressed at t=3 with a 5 s debounce window, and a fresh pair of
back-to-back `turn_on` requests at t=0 and t=3 calls the device once. -/
theorem C5_debounce_and_refresh_suppression_witness :
    (issue_command [(("dev1", "power"), ("turn_on", (0 : ℚ)))] 3 5 60 false true true
        "dev1" "power" "turn_on" (.returns .plain) =
      { issued := false, device_called := false,
        history := [(("dev1", "power"), ("turn_on", (0 : ℚ)))] }) ∧
    (issue_command [] 0 5 60 false true true "dev1" "power" "turn_on"
        (.returns .plain)).device_called = true ∧
    (issue_command
        (issue_command [] 0 5 60 false true true "dev1" "power" "turn_on"
          (.returns .plain)).history
        3 5 60 false true true "dev1" "power" "turn_on"
        (.returns .plain)).device_called = false := by
  have h1 := (C5_debounce_and_refresh_suppression "dev1" "power" "turn_on" 5 60).1
    [(("dev1", "power"), ("turn_on", (0 : ℚ)))] 0 3 false true true
    (.returns .plain) (by decide) (Or.inl (by norm_num))
  have h2 := (C5_debounce_and_refresh_suppression "dev1" "power" "turn_on" 5 60).2
    [] 0 3 .plain (.returns .plain) (by decide) rfl (by norm_num)
  exact ⟨h1, h2.1, h2.2⟩

/-- C10: the debounce and state-refresh windows only apply to a repeat of
the recorded command; when the newly requested command differs from the
last recorded one, `_issue_command` proceeds to the device call no matter
how recently the previous command was issued. -/
theorem C10_different_command_never_suppressed
    (hist : History) (device_id property_name command last_cmd : String)
    (t now debounce_seconds state_refresh_seconds : ℚ) (behavior : CallBehavior)
    (hlook : lookupA hist (device_id, property_name) = some (last_cmd, t))
    (hne : command ≠ last_cmd) :
    (issue_command hist now debounce_seconds state_refresh_seconds false true true
        device_id property_name command behavior).device_called = true := by
  have hact : ¬ (some last_cmd = some command) := by
    simpa [eq_comm] using hne
  cases behavior with
  | raises => simp [issue_command, hlook, hact]
  | returns r =>
    by_cases hsent : interpret_command_sent r = true <;>
      simp [issue_command, hlook, hact, hsent]

/-- Witness for C10 at a concrete input: `turn_off` requested immediately
after a recorded `turn_on` (zero elapsed time) still reaches the device. -/
theorem C10_different_command_never_suppressed_witness :
    (issue_command [(("dev1", "power"), ("turn_on", (0 : ℚ)))] 0 5 60 false true true
        "dev1" "power" "turn_off" (.returns .plain)).device_called = true :=
  C10_different_command_never_suppressed
    [(("dev1", "power"), ("turn_on", (0 : ℚ)))] "dev1" "power" "turn_off" "turn_on"
    0 0 5 60 (.returns .plain) (by decide) (by decide)

/-- C8: on an exception from the device call `_issue_command` returns
normally (the loop survives) with the history entry unchanged, so a retry
at any later time reaches the device again; the history entry is written
(with the command and the current time) exactly when the call succeeds and
its result reports the command as truly sent — a `command_sent = false`
result leaves the history untouched — and also in dry-run mode, where no
hardware call happens at all. -/
theorem C8_failure_keeps_history_success_updates
    (hist : History) (now t1 debounce_seconds state_refresh_seconds : ℚ)
    (device_id property_name command : String)
    (hlook : lookupA hist (device_id, property_name) = none) :
    (issue_command hist now debounce_seconds state_refresh_seconds false true true
        device_id property_name command .raises =
      { issued := false, device_called := true, history := hist }) ∧
    (∀ behavior : CallBehavior,
      (issue_command hist t1 debounce_seconds state_refresh_seconds false true true
          device_id property_name command behavior).device_called = true) ∧
    (∀ r : CommandReturn,
      issue_command hist now debounce_seconds state_refresh_seconds false true true
          device_id property_name command (.returns r) =
        if interpret_command_sent r then
          { issued := true, device_called := true,
            history := insertA hist (device_id, property_name) (command, now) }
        else
          { issued := false, device_called := true, history := hist }) ∧
    (∀ behavior : CallBehavior,
      issue_command hist now debounce_seconds state_refresh_seconds true true true
          device_id property_name command behavior =
        { issued := true, device_called := false,
          history := insertA hist (device_id, property_name) (command, now) }) := by
  refine ⟨by simp [issue_command, hlook], fun behavior => ?_, fun r => ?_,
    fun behavior => by simp [issue_command, hlook]⟩
  · cases behavior with
    | raises => simp [issue_command, hlook]
    | returns r =>
      by_cases hsent : interpret_command_sent r = true <;>
        simp [issue_command, hlook, hsent]
  · by_cases hsent : interpret_command_sent r = true <;>
      simp [issue_command, hlook, hsent]

/-- Witness for C8 at concrete inputs: empty history, a raising
`turn_on`, a no-op result, and a dry-run issuance. -/
theorem C8_failure_keeps_history_success_updates_witness :
    (issue_command [] 7 5 60 false true true "dev1" "power" "turn_on" .raises =
      { issued := false, device_called := true, history := [] }) ∧
    (issue_command [] 7 5 60 false true true "dev1" "power" "turn_on"
        (.returns (.pcr { command_sent := false, final_state := some true })) =
      { issued := false, device_called := true, history := [] }) ∧
    (issue_command [] 7 5 60 true true true "dev1" "power" "turn_on"
        (.returns .plain) =
      { issued := true, device_called := false,
        history := [(("dev1", "power"), ("turn_on", (7 : ℚ)))] }) := by
  have h := C8_failure_keeps_history_success_updates [] 7 9 5 60
    "dev1" "power" "turn_on" rfl
  exact ⟨h.1, h.2.2.1 (.pcr { command_sent := false, final_state := some true }),
    h.2.2.2 (.returns .plain)⟩

/-- C9: a second no-data tick within `state_refresh_seconds` of the
recorded warning is silent and leaves the dedup map unchanged; a no-data
tick with no recorded entry logs immediately and records the time; a
successful aggregated reading erases the entry, so the next missing-data
occurrence logs immediately. -/
theorem C9_missing_reading_log_dedup
    (logs : MissingLogs) (environment_id property_name : String)
    (state_refresh_seconds t0 t1 t2 : ℚ) :
    (∀ t, lookupA logs (environment_id, property_name) = some t →
      t1 - t < state_refresh_seconds →
      missing_reading_step logs environment_id property_name t1
          state_refresh_seconds = (false, logs)) ∧
    (lookupA logs (environment_id, property_name) = none →
      missing_reading_step logs environment_id property_name t0
          state_refresh_seconds =
        (true, insertA logs (environment_id, property_name) t0) ∧
      (t1 - t0 < state_refresh_seconds →
        missing_reading_step (insertA logs (environment_id, property_name) t0)
            environment_id property_name t1 state_refresh_seconds =
          (false, insertA logs (environment_id, property_name) t0))) ∧
    ((missing_reading_step
        (observed_reading_step logs (environment_id, property_name))
        environment_id property_name t2 state_refresh_seconds).1 = true) := by
  refine ⟨fun t hlook hwin => ?_, fun hlook => ⟨?_, fun hwin => ?_⟩, ?_⟩
  · simp [missing_reading_step, hlook, not_le.mpr hwin]
  · simp [missing_reading_step, hlook]
  · simp [missing_reading_step, lookupA_insertA_self, not_le.mpr hwin]
  · simp [missing_reading_step, observed_reading_step, lookupA_eraseA_self]

/-- Witness for C9 at concrete inputs: with a 60 s window, a warning
recorded at t=0 silences t=10, and after a successful reading the next
no-data tick logs again. -/
theorem C9_missing_reading_log_dedup_witness :
    (missing_reading_step [(("env1", "temperature"), (0 : ℚ))]
        "env1" "temperature" 10 60 =
      (false, [(("env1", "temperature"), (0 : ℚ))])) ∧
    ((missing_reading_step
        (observed_reading_step [(("env1", "temperature"), (0 : ℚ))]
          ("env1", "temperature"))
        "env1" "temperature" 10 60).1 = true) := by
  have h := C9_missing_reading_log_dedup [(("env1", "temperature"), (0 : ℚ))]
    "env1" "temperature" 60 0 10 10
  exact ⟨h.1 0 (by decide) (by norm_num), h.2.2⟩

/-- C6: for an outlet whose safety configuration is enabled (enforce true,
valid target state, positive timeout) on hardware exposing a working
countdown surface, commanding a state different from the fallback produces
exactly one `delete_all_rules` followed by one `add_rule` whose `delay` is
the configured timeout converted to seconds and whose `act` encodes the
fallback state; commanding the fallback state itself, or any
disabled/incomplete safety configuration, produces only the clear call and
never an `add_rule`. -/
theorem C6_safety_timer_protocol
    (cfg : SafetyConfig) (hw : OutletHardware) (ts : String) (tm : ℚ)
    (henf : cfg.enforce = true)
    (hts : cfg.target_state = some ts)
    (hvalid : py_lower ts = "on" ∨ py_lower ts = "off")
    (htm : cfg.timeout_minutes = some tm) (hpos : 0 < tm)
    (hmod : hw.countdown_module = true) (hq : hw.query_helper = true)
    (hcr : hw.clear_raises = false) (har : hw.add_raises = false) :
    (∀ command_state : Bool, command_state ≠ decide (py_lower ts = "on") →
      apply_safety_programming cfg hw command_state =
        [.delete_all_rules,
         .add_rule ⌊tm * 60⌋ (if py_lower ts = "on" then 1 else 0) 1
           "spriggler_failsafe"]) ∧
    (apply_safety_programming cfg hw (decide (py_lower ts = "on")) =
      [.delete_all_rules]) ∧
    (∀ (cfg2 : SafetyConfig) (command_state : Bool),
      (cfg2.enforce = false ∨ cfg2.target_state = none ∨
        cfg2.timeout_minutes = none) →
      apply_safety_programming cfg2 hw command_state = [.delete_all_rules]) := by
  have hne : ts ≠ "" := by
    rintro rfl
    rcases hvalid with h | h <;> revert h <;> decide
  have hsettings : safety_settings cfg =
      (some (decide (py_lower ts = "on")), some ⌊tm * 60⌋, true) := by
    simp [safety_settings, henf, hts, htm, hne, not_not_intro hvalid,
      not_le.mpr hpos]
  have hclear : clear_countdown_rules hw = (true, [.delete_all_rules]) := by
    simp [clear_countdown_rules, hmod, hq, hcr]
  refine ⟨fun command_state hcs => ?_, ?_, fun cfg2 command_state hdis => ?_⟩
  · have hcond : ¬ (some command_state = some (decide (py_lower ts = "on"))) := by
      simpa using hcs
    simp [apply_safety_programming, hsettings, hcond,
      program_countdown_failsafe, hclear, hmod, hq, har]
  · simp [apply_safety_programming, hsettings, hclear]
  · have hdis2 : safety_settings cfg2 = (none, none, false) := by
      obtain ⟨ts2, tm2, enf2⟩ := cfg2
      rcases hdis with h | h | h
      · subst h
        simp [safety_settings]
      · subst h
        simp [safety_settings]
      · subst h
        rcases ts2 with _ | ts3 <;> simp [safety_settings]
    simp [apply_safety_programming, hdis2, hclear]

/-- Witness for C6 at a concrete input: fallback `off`, timeout 5 minutes,
capable hardware; commanding `on` arms a 300-second countdown to `off`,
commanding `off` only clears, and a disabled configuration only clears. -/
theorem C6_safety_timer_protocol_witness :
    apply_safety_programming
        { target_state := some "off", timeout_minutes := some 5, enforce := true }
        { countdown_module := true, query_helper := true,
          clear_raises := false, add_raises := false } true =
      [.delete_all_rules, .add_rule 300 0 1 "spriggler_failsafe"] ∧
    apply_safety_programming
        { target_state := some "off", timeout_minutes := some 5, enforce := true }
        { countdown_module := true, query_helper := true,
          clear_raises := false, add_raises := false } false =
      [.delete_all_rules] ∧
    apply_safety_programming
        { target_state := some "off", timeout_minutes := some 5, enforce := false }
        { countdown_module := true, query_helper := true,
          clear_raises := false, add_raises := false } true =
      [.delete_all_rules] := by
  have h := C6_safety_timer_protocol
    { target_state := some "off", timeout_minutes := some 5, enforce := true }
    { countdown_module := true, query_helper := true,
      clear_raises := false, add_raises := false }
    "off" 5 rfl rfl (Or.inr (by decide)) rfl (by norm_num) rfl rfl rfl rfl
  refine ⟨?_, ?_, h.2.2 _ true (Or.inl rfl)⟩
  · have h1 := h.1 true (by decide)
    rw [h1]
    norm_num [show ((5 : ℚ) * 60) = ((300 : ℤ) : ℚ) from by norm_num,
      Int.floor_intCast]
    decide
  · have h2 := h.2.1
    rwa [show decide (py_lower "off" = "on") = false from by decide] at h2

/-- C7 counterexample: `dev1` controls `temperature` and declares effects,
but none of them matches `temperature`; every matching effect (vacuously)
carries all three decision keys, yet construction raises: the claim's
success condition omits the `has effects, but none for property` error. -/
theorem C7_counterexample_no_matching_effect :
    (∀ e ∈ matching_effects no_matching_effect_config "temperature" "dev1",
        effect_policy_complete e = true) ∧
    construction_succeeds no_matching_effect_config = false := by
  decide

/-- C7 (amended): construction succeeds iff every controller device of
every controlled property has a non-empty effect list, at least one effect
matching the property, and a complete `policy` (all of increase, decrease,
stable) on every matching effect; any violation — including the claim's
missing-effects, missing-policy and missing-key cases — raises a
configuration error during construction, before any evaluation runs. -/
theorem C7_validation_characterization (cfg : ControllerConfig) :
    construction_succeeds cfg = true ↔
      ∀ environment ∈ cfg.environments, ∀ p ∈ environment.properties,
        ∀ device_id ∈ p.2.controllers,
          device_effects cfg device_id ≠ [] ∧
          matching_effects cfg p.1 device_id ≠ [] ∧
          ∀ e ∈ matching_effects cfg p.1 device_id,
            effect_policy_complete e = true := by
  unfold construction_succeeds
  rw [decide_eq_true_eq]
  unfold validate_configuration
  rw [List.flatMap_eq_nil_iff]
  refine forall_congr' fun environment => imp_congr_right fun _ => ?_
  rw [List.flatMap_eq_nil_iff]
  refine forall_congr' fun p => imp_congr_right fun _ => ?_
  rw [List.flatMap_eq_nil_iff]
  refine forall_congr' fun device_id => imp_congr_right fun _ => ?_
  exact triple_errors_eq_nil_iff cfg environment.id p.1 device_id

/-- Witness for C7: a configuration whose single controller device has a
matching effect with all three decision keys constructs successfully. -/
theorem C7_validation_characterization_witness :
    construction_succeeds fully_keyed_config = true :=
  (C7_validation_characterization fully_keyed_config).mpr (by decide)

end Spriggler
